import Mathlib

/-!
Verification of the sol-mainframe attendance-to-rank engine.

The definitions below are a shallow embedding of the Rust sources
`src/util/src/mainframe.rs` and `src/src/main.rs`.  Timestamps
(`chrono::DateTime<Utc>`) are modelled as a record of civil fields; the
calendar functions (`weekday`, `iso_week().week()`) are modelled by the
standard proleptic-Gregorian algorithms that chrono implements.  Machine
integers that only ever hold ids or small counters are modelled as `Nat`
(for `u64` fields, which the code never does arithmetic on) and `Int`
(for `i32` counters).  Fallible or panicking code returns `Option`.
-/

namespace SolMainframe

/-- Civil UTC timestamp, the model of `chrono::DateTime<Utc>`. -/
structure DateTime where
  year : Nat
  month : Nat
  day : Nat
  hour : Nat
  minute : Nat
  second : Nat
  nano : Nat
deriving DecidableEq, Repr

/-- Gregorian leap-year test. -/
def isLeap (y : Nat) : Bool :=
  y % 4 == 0 && (y % 100 != 0 || y % 400 == 0)

/-- Length of month `m` (1..12) in year `y`. -/
def daysInMonth (y m : Nat) : Nat :=
  if m == 2 then (if isLeap y then 29 else 28)
  else if m == 4 || m == 6 || m == 9 || m == 11 then 30
  else 31

/-- Ordinal day of the year (1 = Jan 1). -/
def dayOfYear (y m d : Nat) : Nat :=
  let rec monthsBefore : Nat → Nat
    | 0 => 0
    | k + 1 => monthsBefore k + daysInMonth y (k + 1)
  monthsBefore (m - 1) + d

/-- Rata Die day number: day 1 is 0001-01-01 of the proleptic Gregorian
calendar (a Monday). -/
def rataDie (y m d : Nat) : Nat :=
  365 * (y - 1) + (y - 1) / 4 - (y - 1) / 100 + (y - 1) / 400 + dayOfYear y m d

/-- ISO weekday, 1 = Monday .. 7 = Sunday; model of `chrono::Datelike::weekday`
(the code only compares against `Weekday::Sun`, i.e. 7). -/
def DateTime.weekday (t : DateTime) : Nat :=
  (rataDie t.year t.month t.day - 1) % 7 + 1

/-- Weekday of January 1 of year `y`. -/
def weekdayJan1 (y : Nat) : Nat :=
  (rataDie y 1 1 - 1) % 7 + 1

/-- Number of ISO weeks in ISO year `y` (52 or 53). -/
def weeksInISOYear (y : Nat) : Nat :=
  if weekdayJan1 y = 4 ∨ (isLeap y = true ∧ weekdayJan1 y = 3) then 53 else 52

/-- ISO week number (1..53) of the date, the model of
`chrono::Datelike::iso_week().week()`.  Note this is the week NUMBER only,
not the (ISO year, week) pair. -/
def DateTime.isoWeek (t : DateTime) : Nat :=
  let doy := dayOfYear t.year t.month t.day
  let wd := t.weekday
  let w := (doy + 10 - wd) / 7
  if w = 0 then weeksInISOYear (t.year - 1)
  else if weeksInISOYear t.year < w then 1
  else w

/-- Civil date (time fields zero) of a Rata Die day number; model of the
date arithmetic chrono performs for `now - Duration::days(k)`. -/
def civilFromRd (rd : Nat) : DateTime :=
  let z := rd + 305
  let era := z / 146097
  let doe := z % 146097
  let yoe := (doe - doe / 1460 + doe / 36524 - doe / 146096) / 365
  let doy := doe - (365 * yoe + yoe / 4 - yoe / 100)
  let mp := (5 * doy + 2) / 153
  let d := doy - (153 * mp + 2) / 5 + 1
  let m := if mp < 10 then mp + 3 else mp - 9
  let y := if m ≤ 2 then era * 400 + yoe + 1 else era * 400 + yoe
  ⟨y, m, d, 0, 0, 0, 0⟩

/-- Model of `has_date_rolled_over` (mainframe.rs:68-82), with the
implicit `Utc::now()` made an explicit parameter `current_date`. -/
def has_date_rolled_over (previous_date current_date : DateTime) : Bool :=
  let current_week := current_date.isoWeek
  let prev_week := previous_date.isoWeek
  if current_week ≠ prev_week then true
  else if previous_date.weekday = 7 ∧ current_date.weekday ≠ 7 then true
  else false

/-- Metadata mapping, the model of
`HashMap<String, HashMap<String, String>>` as an association list. -/
abbrev Metadata := List (String × List (String × String))

/-- Model of `struct Event` (mainframe.rs:13-21). -/
structure Event where
  host : Nat
  attendance : List Nat
  event_date : DateTime
  location : String
  kind : String
  metadata : Option Metadata
deriving DecidableEq, Repr

/-- Model of `struct Profile` (mainframe.rs:84-93).  `u64` fields are `Nat`
(never used arithmetically), `i32` counters are `Int`. -/
structure Profile where
  user_id : Nat
  username : Option String
  rank_id : Nat
  last_event_attended_date : Option DateTime
  total_marks : Int
  marks_at_current_rank : Int
  events_attended_this_week : Int
deriving DecidableEq, Repr

/-- Two's-complement wrap of `i32` arithmetic: the value reduced into
`-2^31 .. 2^31 - 1`.  Rust release builds wrap `i32` overflow (debug builds
panic), so the `+= 1` on the mark counters is integer addition followed by
this wrap. -/
def i32wrap (v : Int) : Int := (v + 2 ^ 31) % 2 ^ 32 - 2 ^ 31

/-- Model of `Profile::try_award_mark` (mainframe.rs:143-152).  The constant
`rank::EVENT_PER_WEEK_FOR_MARK` lives in `rank.rs`, which is not part of the
given sources; following §9 of the spec ("abstract as an injected
configuration ... a single integer events per mark") it is taken as the
explicit parameter `eventPerWeekForMark`.  The `+= 1` on the two `i32` mark
counters is rendered with the explicit `i32` wrap.  Returns the `bool`
result paired with the updated profile. -/
def Profile.try_award_mark (eventPerWeekForMark : Int) (p : Profile) :
    Bool × Profile :=
  if p.events_attended_this_week = eventPerWeekForMark then
    (true, { p with
              total_marks := i32wrap (p.total_marks + 1),
              marks_at_current_rank := i32wrap (p.marks_at_current_rank + 1) })
  else
    (false, p)

/-- Model of `Profile::try_update_rank` (mainframe.rs:154-162). -/
def Profile.try_update_rank (current_rank_id : Nat) (p : Profile) :
    Bool × Profile :=
  if p.rank_id ≠ current_rank_id then
    (true, { p with rank_id := current_rank_id, marks_at_current_rank := 0 })
  else
    (false, p)

/-- Model of `Profile::try_reset_events` (mainframe.rs:164-175), with the
current instant (consumed via `has_date_rolled_over`) as the explicit
parameter `now`. -/
def Profile.try_reset_events (now : DateTime) (p : Profile) :
    Bool × Profile :=
  match p.last_event_attended_date with
  | some date =>
      if has_date_rolled_over date now then
        (true, { p with events_attended_this_week := 0 })
      else
        (false, p)
  | none =>
      (false, { p with events_attended_this_week := 0 })

/-! ### Textual encodings

Models of the external serialization libraries the row format uses:
`chrono`'s RFC3339 printing/parsing and `serde_json` for `Vec<u64>` and the
metadata mapping.  Printers produce the canonical output of those libraries
(no optional whitespace, no string escapes — none of the encoded fields
contain characters needing escapes); parsers accept the corresponding
grammar and return `none` on malformed input, modelling `Err`/panic. -/

def digitChar (n : Nat) : Char := Char.ofNat (48 + n)

def dquoteChar : Char := Char.ofNat 34

def lbraceChar : Char := Char.ofNat 123

def rbraceChar : Char := Char.ofNat 125

/-- Decimal digits of `n`, most significant first (fuel-driven). -/
def natDigitsCore : Nat → Nat → List Char
  | 0, _ => []
  | fuel + 1, n =>
    if n < 10 then [digitChar n]
    else natDigitsCore fuel (n / 10) ++ [digitChar (n % 10)]

def digitsOf (n : Nat) : List Char := natDigitsCore (n + 1) n

/-- Left-pad a digit string with zeros to width `w`. -/
def padZeros (w : Nat) (ds : List Char) : List Char :=
  List.replicate (w - ds.length) (digitChar 0) ++ ds

def pad2 (n : Nat) : List Char := padZeros 2 (digitsOf n)

def pad4 (n : Nat) : List Char := padZeros 4 (digitsOf n)

/-- Fractional-second part of chrono's `to_rfc3339`: empty when zero,
otherwise `.` followed by 3, 6 or 9 digits (trailing-zero groups elided). -/
def fracChars (nano : Nat) : List Char :=
  if nano = 0 then []
  else if nano % 1000000 = 0 then '.' :: padZeros 3 (digitsOf (nano / 1000000))
  else if nano % 1000 = 0 then '.' :: padZeros 6 (digitsOf (nano / 1000))
  else '.' :: padZeros 9 (digitsOf nano)

/-- Model of `DateTime<Utc>::to_rfc3339` (the write path of the
`event_date` column): `YYYY-MM-DDTHH:MM:SS[.fff]+00:00`. -/
def toRfc3339 (t : DateTime) : String :=
  String.mk
    (pad4 t.year ++ '-' :: pad2 t.month ++ '-' :: pad2 t.day ++
     'T' :: pad2 t.hour ++ ':' :: pad2 t.minute ++ ':' :: pad2 t.second ++
     fracChars t.nano ++ ['+', '0', '0', ':', '0', '0'])

def digitVal (c : Char) : Option Nat :=
  if 48 ≤ c.toNat ∧ c.toNat ≤ 57 then some (c.toNat - 48) else none

def parseNatDigitsCore : List Char → Nat → Option Nat
  | [], acc => some acc
  | c :: rest, acc =>
    match digitVal c with
    | some d => parseNatDigitsCore rest (acc * 10 + d)
    | none => none

/-- Parse a non-empty all-digit string as a `Nat`. -/
def parseNatDigits : List Char → Option Nat
  | [] => none
  | cs => parseNatDigitsCore cs 0

/-- Read exactly `n` characters as a decimal field. -/
def parseFixedNat (n : Nat) (cs : List Char) : Option (Nat × List Char) :=
  if cs.length < n then none
  else do
    let v ← parseNatDigits (cs.take n)
    some (v, cs.drop n)

def expectChar (c : Char) : List Char → Option (List Char)
  | [] => none
  | x :: rest => if x = c then some rest else none

/-- Optional `.digits` fraction, returning nanoseconds. -/
def parseFrac : List Char → Option (Nat × List Char)
  | '.' :: rest =>
    let ds := rest.takeWhile (fun c => (digitVal c).isSome)
    if ds.length = 0 ∨ 9 < ds.length then none
    else do
      let v ← parseNatDigits ds
      some (v * 10 ^ (9 - ds.length), rest.drop ds.length)
  | cs => some (0, cs)

/-- Numeric timezone offset (or `Z`), returned as
(offset-is-negative, offset in seconds, rest). -/
def parseOffset : List Char → Option (Bool × Nat × List Char)
  | 'Z' :: rest => some (false, 0, rest)
  | 'z' :: rest => some (false, 0, rest)
  | c :: rest =>
    if c = '+' ∨ c = '-' then do
      let (oh, r1) ← parseFixedNat 2 rest
      let r2 ← expectChar ':' r1
      let (om, r3) ← parseFixedNat 2 r2
      if oh ≤ 23 ∧ om ≤ 59 then some (c = '-', oh * 3600 + om * 60, r3)
      else none
    else none
  | [] => none

/-- Normalize parsed civil fields plus an offset to UTC, as chrono's
`.into()` / `.to_utc()` conversion does, via day-number arithmetic. -/
def toUtcFields (y m d h mi s nano : Nat) (negOff : Bool) (offSecs : Nat) :
    DateTime :=
  let total := rataDie y m d * 86400 + (h * 3600 + mi * 60 + s)
  let utc := if negOff then total + offSecs else total - offSecs
  let date := civilFromRd (utc / 86400)
  let sod := utc % 86400
  ⟨date.year, date.month, date.day, sod / 3600, sod % 3600 / 60, sod % 60,
   nano⟩

/-- The `YYYY-MM-DD` part, returning year, month, day and the rest. -/
def parseDatePart (cs : List Char) : Option (Nat × Nat × Nat × List Char) := do
  let (y, r1) ← parseFixedNat 4 cs
  let r2 ← expectChar '-' r1
  let (m, r3) ← parseFixedNat 2 r2
  let r4 ← expectChar '-' r3
  let (d, r5) ← parseFixedNat 2 r4
  some (y, m, d, r5)

/-- The `HH:MM:SS` part, returning hour, minute, second and the rest. -/
def parseTimePart (cs : List Char) : Option (Nat × Nat × Nat × List Char) := do
  let (h, r1) ← parseFixedNat 2 cs
  let r2 ← expectChar ':' r1
  let (mi, r3) ← parseFixedNat 2 r2
  let r4 ← expectChar ':' r3
  let (s, r5) ← parseFixedNat 2 r4
  some (h, mi, s, r5)

/-- The range validation chrono applies to parsed civil fields. -/
def rfcFieldsOK (y m d h mi s : Nat) : Bool :=
  decide (1 ≤ m) && decide (m ≤ 12) && decide (1 ≤ d) &&
  decide (d ≤ daysInMonth y m) && decide (h ≤ 23) && decide (mi ≤ 59) &&
  decide (s ≤ 59)

/-- Model of `chrono::DateTime::parse_from_rfc3339` composed with the
conversion to `Utc` that both `from_row` functions apply.  Accepts
`YYYY-MM-DDTHH:MM:SS[.f{1,9}](Z|±HH:MM)` with range-checked fields and
returns `none` on malformed input. -/
def parseRfc3339 (str : String) : Option DateTime := do
  let (y, m, d, r1) ← parseDatePart str.data
  let r2 ← expectChar 'T' r1
  let (h, mi, s, r3) ← parseTimePart r2
  let (nano, r4) ← parseFrac r3
  let (negOff, offSecs, r5) ← parseOffset r4
  if r5 = [] && rfcFieldsOK y m d h mi s then
    some (toUtcFields y m d h mi s nano negOff offSecs)
  else none

def joinComma : List (List Char) → List Char
  | [] => []
  | [x] => x
  | x :: rest => x ++ ',' :: joinComma rest

/-- Model of `serde_json::to_string::<Vec<u64>>` (the `attendance` column
write path in `put_event`, main.rs:114). -/
def toStringNatList (l : List Nat) : String :=
  String.mk ('[' :: joinComma (l.map digitsOf) ++ [']'])

def splitCommaCore : List Char → List Char → List (List Char)
  | [], cur => [cur.reverse]
  | c :: rest, cur =>
    if c = ',' then cur.reverse :: splitCommaCore rest []
    else splitCommaCore rest (c :: cur)

def traverseNats : List (List Char) → Option (List Nat)
  | [] => some []
  | cs :: rest => do
    let n ← parseNatDigits cs
    let ns ← traverseNats rest
    some (n :: ns)

/-- Model of `serde_json::from_str::<Vec<u64>>` (the `attendance` decode in
`Event::from_row`, mainframe.rs:39); `none` models the `.unwrap()` panic on
corrupt JSON. -/
def parseNatList (str : String) : Option (List Nat) :=
  match str.data with
  | [] => none
  | c :: rest =>
    if c = '[' then
      match rest.getLast? with
      | some last =>
        if last = ']' then
          let inner := rest.dropLast
          if inner = [] then some []
          else traverseNats (splitCommaCore inner [])
        else none
      | none => none
    else none

def quoteChars (s : String) : List Char := dquoteChar :: s.data ++ [dquoteChar]

def printStrPair (kv : String × String) : List Char :=
  quoteChars kv.fst ++ ':' :: quoteChars kv.snd

def printInnerObj (kvs : List (String × String)) : List Char :=
  lbraceChar :: joinComma (kvs.map printStrPair) ++ [rbraceChar]

/-- Model of `serde_json::to_string` for the metadata mapping
`HashMap<String, HashMap<String, String>>` (association-list order). -/
def printMetadata (m : Metadata) : String :=
  String.mk
    (lbraceChar ::
      joinComma (m.map fun kv => quoteChars kv.fst ++ ':' :: printInnerObj kv.snd) ++
      [rbraceChar])

/-- Characters of a quoted string up to the closing quote. -/
def takeQuoted : List Char → Option (List Char × List Char)
  | [] => none
  | c :: rest =>
    if c = dquoteChar then some ([], rest)
    else do
      let (s, r) ← takeQuoted rest
      some (c :: s, r)

def parseQuoted (cs : List Char) : Option (String × List Char) := do
  let r0 ← expectChar dquoteChar cs
  let (s, r1) ← takeQuoted r0
  some (String.mk s, r1)

/-- Key/value pairs of an inner JSON object, after its opening brace. -/
def parseInnerPairs : Nat → List Char → Option (List (String × String) × List Char)
  | 0, _ => none
  | fuel + 1, cs => do
    let (k, r1) ← parseQuoted cs
    let r2 ← expectChar ':' r1
    let (v, r3) ← parseQuoted r2
    match r3 with
    | c :: rest =>
      if c = rbraceChar then some ([(k, v)], rest)
      else if c = ',' then do
        let (kvs, r4) ← parseInnerPairs fuel rest
        some ((k, v) :: kvs, r4)
      else none
    | [] => none

def parseInnerObj (fuel : Nat) (cs : List Char) :
    Option (List (String × String) × List Char) := do
  let r0 ← expectChar lbraceChar cs
  match r0 with
  | c :: rest =>
    if c = rbraceChar then some ([], rest)
    else parseInnerPairs fuel r0
  | [] => none

/-- Entries of the outer metadata object, after its opening brace. -/
def parseOuterPairs : Nat → List Char → Option (Metadata × List Char)
  | 0, _ => none
  | fuel + 1, cs => do
    let (k, r1) ← parseQuoted cs
    let r2 ← expectChar ':' r1
    let (v, r3) ← parseInnerObj fuel r2
    match r3 with
    | c :: rest =>
      if c = rbraceChar then some ([(k, v)], rest)
      else if c = ',' then do
        let (kvs, r4) ← parseOuterPairs fuel rest
        some ((k, v) :: kvs, r4)
      else none
    | [] => none

/-- Model of `serde_json::from_str` for the metadata mapping (the decode in
`Event::from_row`, mainframe.rs:43-45); `none` models the panic. -/
def parseMetadata (str : String) : Option Metadata := do
  let cs := str.data
  let r0 ← expectChar lbraceChar cs
  match r0 with
  | c :: rest =>
    if c = rbraceChar then (if rest = [] then some [] else none)
    else do
      let (m, r1) ← parseOuterPairs (cs.length + 1) r0
      if r1 = [] then some m else none
  | [] => none

/-! ### Row model and the read/write paths -/

/-- A stored column value: libsql INTEGER, TEXT or NULL. -/
inductive Col where
  | int (i : Int)
  | text (s : String)
  | null
deriving DecidableEq, Repr

/-- A stored row, columns in schema order. -/
abbrev Row := List Col

/-- Model of `row.get::<u64>(i)`. -/
def Row.getU64 (r : Row) (i : Nat) : Option Nat :=
  match r[i]? with
  | some (Col.int v) => if 0 ≤ v then some v.toNat else none
  | _ => none

/-- Model of `row.get::<i32>(i)`. -/
def Row.getI32 (r : Row) (i : Nat) : Option Int :=
  match r[i]? with
  | some (Col.int v) => if -(2 ^ 31) ≤ v ∧ v < 2 ^ 31 then some v else none
  | _ => none

/-- Model of `row.get_str(i)` / `row.get::<String>(i)`. -/
def Row.getStr (r : Row) (i : Nat) : Option String :=
  match r[i]? with
  | some (Col.text s) => some s
  | _ => none

/-- Model of `row.get::<Option<String>>(i)`. -/
def Row.getOptStr (r : Row) (i : Nat) : Option (Option String) :=
  match r[i]? with
  | some (Col.text s) => some (some s)
  | some Col.null => some none
  | _ => none

/-- The `metadata_str.map(|s| serde_json::from_str(&s).unwrap())` step of
`Event::from_row`. -/
def decodeOptMetadata : Option String → Option (Option Metadata)
  | none => some none
  | some s => Option.map some (parseMetadata s)

/-- The `.map(|s| parse_from_rfc3339(&s).unwrap().to_utc())` step of
`Profile::from_row`. -/
def decodeOptDate : Option String → Option (Option DateTime)
  | none => some none
  | some s => Option.map some (parseRfc3339 s)

/-- Model of `Event::from_row` (mainframe.rs:36-55).  Every `.unwrap()` in
the source panics on failure; the model returns `none` there. -/
def Event.from_row (row : Row) : Option Event := do
  let _event_id ← row.getU64 0
  let host ← row.getU64 1
  let attendanceStr ← row.getStr 2
  let attendance ← parseNatList attendanceStr
  let dateStr ← row.getStr 3
  let event_date ← parseRfc3339 dateStr
  let location ← row.getStr 4
  let kind ← row.getStr 5
  let metadata_str ← row.getOptStr 6
  let metadata ← decodeOptMetadata metadata_str
  some ⟨host, attendance, event_date, location, kind, metadata⟩

def nullSentinel : String := "null"

/-- Model of `Profile::from_row` (mainframe.rs:107-132), including the
`"null"` sentinel for an absent `last_event_attended_date`. -/
def Profile.from_row (row : Row) : Option Profile := do
  let user_id ← row.getU64 0
  let username ← row.getOptStr 1
  let rank_id ← row.getU64 2
  let event_date_string ← row.getStr 3
  let event_date_opt_string :=
    if event_date_string = nullSentinel then none else some event_date_string
  let last_event_attended_date ← decodeOptDate event_date_opt_string
  let total_marks ← row.getI32 4
  let marks_at_current_rank ← row.getI32 5
  let events_attended_this_week ← row.getI32 6
  some ⟨user_id, username, rank_id, last_event_attended_date, total_marks,
        marks_at_current_rank, events_attended_this_week⟩

/-- The row stored by the `INSERT` in `put_event` (main.rs:114-121), laid
out in the schema column order of §6 (surrogate id, host, attendance,
event_date, location, kind, metadata).  The `INSERT` names only the columns
host, attendance, event_date, kind and location, so the metadata column is
never written and stores NULL. -/
def put_event_row (event_id : Nat) (e : Event) : Row :=
  [Col.int (Int.ofNat event_id),
   Col.int (Int.ofNat e.host),
   Col.text (toStringNatList e.attendance),
   Col.text (toRfc3339 e.event_date),
   Col.text e.location,
   Col.text e.kind,
   Col.null]

/-- Modelled from the spec: the Profile write path lives in
`src/src/database.rs`, which is not among the given sources; §6 gives the
row encoding "user_id (integer), username (optional text), rank_id
(integer), last_event_attended_date (text; literal `null` or an RFC3339
timestamp — never a true null), total_marks (integer), marks_at_current_rank
(integer), events_attended_this_week (integer)". -/
def profile_row (p : Profile) : Row :=
  [Col.int (Int.ofNat p.user_id),
   (match p.username with
    | some u => Col.text u
    | none => Col.null),
   Col.int (Int.ofNat p.rank_id),
   Col.text
     (match p.last_event_attended_date with
      | some d => toRfc3339 d
      | none => nullSentinel),
   Col.int p.total_marks,
   Col.int p.marks_at_current_rank,
   Col.int p.events_attended_this_week]

/-- Modelled from the spec: `database::get_event` (src/src/database.rs, not
among the given sources).  Per §7, a nonexistent event id is NotFound and
surfaces as an explicit absent result (`ok none`), while a stored row that
cannot be decoded per §6 is an EncodingFailure that aborts the single read
(`error`).  The persistence store is the explicit map `store`. -/
def database_get_event (store : Nat → Option Row) (event_id : Nat) :
    Except Unit (Option Event) :=
  match store event_id with
  | none => Except.ok none
  | some row =>
    match Event.from_row row with
    | some e => Except.ok (some e)
    | none => Except.error ()

/-- Model of the handler `get_event_info_by_info` (main.rs:85-99): the
result of `database::get_event` is collapsed by `.unwrap_or(None)`. -/
def get_event_info_by_info (store : Nat → Option Row) (event_id : Nat) :
    Option Event :=
  match database_get_event store event_id with
  | Except.ok v => v
  | Except.error _ => none

/-- Modelled from the spec: an entry of the static rank table of `rank.rs`
(not part of the given sources); §4.2 describes it as "a static
configuration mapping rank id → required marks, with some ranks having no
threshold". -/
structure Rank where
  required_marks : Option Int
deriving DecidableEq, Repr

/-- Model of `Profile::should_promote` (mainframe.rs:134-141).  The lookup
function `Rank::from_rank_id` lives in the absent `rank.rs` and is taken as
the parameter `from_rank_id`; the `.unwrap()` on its result is modelled by
returning `none` (panic) when the lookup misses. -/
def Profile.should_promote (from_rank_id : Nat → Option Rank)
    (p : Profile) : Option Bool :=
  match from_rank_id p.rank_id with
  | none => none
  | some rank =>
    match rank.required_marks with
    | some marks => some (decide (p.marks_at_current_rank = marks))
    | none => some false

/-! ### Auxiliary definitions for the statements -/

/-- Day-level check used for the bounded verification of the
`now − 6 days` / `now − 5 days` behaviour of the rollover predicate:
six days back rolls over exactly when `now` is not a Sunday, and five days
back fails to roll over exactly when `now` is a Saturday or a Sunday. -/
def rolloverSixFive (rd : Nat) : Bool :=
  (has_date_rolled_over (civilFromRd (rd - 6)) (civilFromRd rd) ==
     decide ((civilFromRd rd).weekday ≠ 7)) &&
  (has_date_rolled_over (civilFromRd (rd - 5)) (civilFromRd rd) ==
     decide (¬((civilFromRd rd).weekday = 6 ∨ (civilFromRd rd).weekday = 7)))

/-- `rolloverSixFive` on every day of `[lo, hi)`, by fuel-driven bisection
(so that kernel evaluation recurses only logarithmically deep). -/
def checkRolloverInterval (fuel : Nat) (lo hi : Nat) : Bool :=
  match fuel with
  | 0 => false
  | f + 1 =>
    if hi ≤ lo then true
    else if hi = lo + 1 then rolloverSixFive lo
    else
      checkRolloverInterval f lo ((lo + hi) / 2) &&
      checkRolloverInterval f ((lo + hi) / 2) hi

/-- A Profile state-transition operation, for reasoning about finite
sequences of the three mutators. -/
inductive ProfileOp where
  | award (eventPerWeekForMark : Int)
  | updateRank (current_rank_id : Nat)
  | resetEvents (now : DateTime)

/-- The state change a single operation performs (its `bool` discarded). -/
def applyProfileOp : ProfileOp → Profile → Profile
  | ProfileOp.award t, p => (p.try_award_mark t).snd
  | ProfileOp.updateRank x, p => (p.try_update_rank x).snd
  | ProfileOp.resetEvents n, p => (p.try_reset_events n).snd

/-- A finite sequence of Profile operations, applied left to right. -/
def applyProfileOps (ops : List ProfileOp) (p : Profile) : Profile :=
  ops.foldl (fun q op => applyProfileOp op q) p

/-! ### Concrete sample data -/

/-- A profile sitting exactly at a weekly threshold of 4, never attended. -/
def awardSampleProfile : Profile := ⟨1, none, 1, none, 0, 0, 4⟩

def metadataSample : Metadata := [("supply", [("ammo", "low")])]

/-- An event carrying a metadata mapping. -/
def eventSample : Event :=
  ⟨101, [101, 202], ⟨2024, 6, 5, 12, 30, 15, 0⟩, "fort", "raid",
   some metadataSample⟩

/-- The same event without metadata. -/
def eventSampleNoMeta : Event :=
  ⟨101, [101, 202], ⟨2024, 6, 5, 12, 30, 15, 0⟩, "fort", "raid", none⟩

/-- A stored event row whose attendance column is not valid JSON. -/
def corruptAttendanceRow : Row :=
  [Col.int 1, Col.int 7, Col.text ("not json"),
   Col.text (toRfc3339 ⟨2024, 6, 5, 12, 30, 15, 0⟩), Col.text ("fort"),
   Col.text ("raid"), Col.null]

/-- A store holding exactly one (corrupt) event row, under id 1. -/
def corruptEventStore : Nat → Option Row :=
  fun i => if i = 1 then some corruptAttendanceRow else none

/-- A profile at the weekly threshold whose `total_marks` sits at the `i32`
maximum — a state `Row.getI32` accepts, so it is storable and decodable. -/
def overflowProfile : Profile := ⟨1, none, 1, none, 2 ^ 31 - 1, 0, 4⟩

/-- A profile that never attended (the `"null"` sentinel case). -/
def profileSampleNoDate : Profile := ⟨42, some ("kern"), 3, none, 7, 2, 1⟩

/-- A profile with an attendance date and a legacy absent username. -/
def profileSampleWithDate : Profile :=
  ⟨43, none, 4, some ⟨2024, 6, 5, 12, 30, 15, 0⟩, 9, 0, 3⟩

/-! ### Sanity checks of the embedding on concrete values -/

example : (DateTime.mk 2024 1 8 0 0 0 0).weekday = 1 := by decide
example : (DateTime.mk 2024 1 7 0 0 0 0).weekday = 7 := by decide
example : (DateTime.mk 2023 6 7 0 0 0 0).weekday = 3 := by decide
example : (DateTime.mk 2024 1 8 0 0 0 0).isoWeek = 2 := by decide
example : (DateTime.mk 2023 1 1 0 0 0 0).isoWeek = 52 := by decide
example : (DateTime.mk 2021 1 1 0 0 0 0).isoWeek = 53 := by decide
example : (DateTime.mk 2019 12 30 0 0 0 0).isoWeek = 1 := by decide
example : civilFromRd (rataDie 2024 6 5) = ⟨2024, 6, 5, 0, 0, 0, 0⟩ := by decide
example : civilFromRd (rataDie 2024 1 8 - 6) = ⟨2024, 1, 2, 0, 0, 0, 0⟩ := by
  decide
example : civilFromRd (rataDie 2020 2 29) = ⟨2020, 2, 29, 0, 0, 0, 0⟩ := by
  decide
example : civilFromRd (rataDie 2024 3 1 - 1) = ⟨2024, 2, 29, 0, 0, 0, 0⟩ := by
  decide

example : parseNatList (toStringNatList [101, 202]) = some [101, 202] := by
  decide
example : parseNatList (toStringNatList []) = some [] := by decide
example :
    parseRfc3339 (toRfc3339 ⟨2024, 6, 5, 12, 30, 15, 0⟩) =
      some ⟨2024, 6, 5, 12, 30, 15, 0⟩ := by decide
example :
    parseRfc3339 (toRfc3339 ⟨2023, 12, 31, 23, 59, 59, 123000000⟩) =
      some ⟨2023, 12, 31, 23, 59, 59, 123000000⟩ := by decide
example :
    parseMetadata (printMetadata [("supply", [("ammo", "low"), ("x", "y")])]) =
      some [("supply", [("ammo", "low"), ("x", "y")])] := by decide
example : parseNatList ("not json") = none := by decide
example : parseRfc3339 ("garbage") = none := by decide

/-! ### C5: characterisation of the rollover predicate -/

/-- C5: for every timestamp `t` and current instant `now` (explicit
parameter), `has_date_rolled_over t now` is true iff the ISO week number of
`now` differs from that of `t`, or `t` falls on a Sunday (weekday 7) and
`now` falls on a weekday other than Sunday. -/
theorem has_date_rolled_over_iff (t now : DateTime) :
    has_date_rolled_over t now = true ↔
      (now.isoWeek ≠ t.isoWeek ∨ (t.weekday = 7 ∧ now.weekday ≠ 7)) := by
  unfold has_date_rolled_over
  by_cases h1 : now.isoWeek ≠ t.isoWeek
  · simp [h1]
  · by_cases h2 : t.weekday = 7 ∧ now.weekday ≠ 7
    · simp [h1, h2]
    · simp [h1, h2]

/-- C5 witness: the predicate applied across the 2024-W01 / 2024-W02
boundary via the characterisation. -/
theorem has_date_rolled_over_iff_witness :
    has_date_rolled_over ⟨2024, 1, 1, 0, 0, 0, 0⟩ ⟨2024, 1, 8, 0, 0, 0, 0⟩ =
      true :=
  (has_date_rolled_over_iff ⟨2024, 1, 1, 0, 0, 0, 0⟩
      ⟨2024, 1, 8, 0, 0, 0, 0⟩).mpr (Or.inl (by decide))

/-! ### C10: week numbers are compared without the ISO year -/

/-- C10: `has_date_rolled_over` compares bare ISO week numbers, so for
2022-06-08 (a Wednesday of ISO week 23) against a now of 2024-06-05 (also
ISO week 23), 728 days later, it returns false even though two full years
elapsed. -/
theorem rollover_misses_same_week_number_across_years :
    has_date_rolled_over ⟨2022, 6, 8, 0, 0, 0, 0⟩ ⟨2024, 6, 5, 0, 0, 0, 0⟩ =
      false ∧
    (DateTime.mk 2022 6 8 0 0 0 0).isoWeek =
      (DateTime.mk 2024 6 5 0 0 0 0).isoWeek ∧
    (DateTime.mk 2022 6 8 0 0 0 0).weekday ≠ 7 ∧
    rataDie 2024 6 5 = rataDie 2022 6 8 + 728 := by decide

/-! ### C4: the `now − 6 days` / `now − 5 days` concrete case -/

/-- If the bisection check succeeds on `[lo, hi)`, every day in the
interval satisfies `rolloverSixFive`. -/
theorem checkRolloverInterval_spec :
    ∀ fuel lo hi, checkRolloverInterval fuel lo hi = true →
      ∀ k, lo ≤ k → k < hi → rolloverSixFive k = true := by
  intro fuel
  induction fuel with
  | zero =>
    intro lo hi h
    simp [checkRolloverInterval] at h
  | succ f ih =>
    intro lo hi h k hk1 hk2
    rw [checkRolloverInterval] at h
    by_cases h1 : hi ≤ lo
    · omega
    · rw [if_neg h1] at h
      by_cases h2 : hi = lo + 1
      · rw [if_pos h2] at h
        have : k = lo := by omega
        rw [this]
        exact h
      · rw [if_neg h2, Bool.and_eq_true] at h
        by_cases h3 : k < (lo + hi) / 2
        · exact ih lo ((lo + hi) / 2) h.1 k hk1 h3
        · exact ih ((lo + hi) / 2) hi h.2 k (by omega) hk2

theorem rataDie_2020_val : rataDie 2020 1 1 = 737425 := by decide

theorem rataDie_2021_val : rataDie 2021 12 31 = 738155 := by decide

set_option maxHeartbeats 4000000 in
theorem rollover_range_checked :
    checkRolloverInterval 13 737425 738156 = true := by decide

/-- C4 counterexample: the claim asserts
`has_date_rolled_over (now − 6 days) now = true` and
`has_date_rolled_over (now − 5 days) now = false` for every `now`, but for
`now` = 2024-01-08 (a Monday) five days back lies in the previous ISO week
and the predicate returns true, and for `now` = 2024-01-07 (a Sunday) six
days back is the Monday of the same ISO week and the predicate returns
false. -/
theorem rollover_concrete_case_counterexample :
    has_date_rolled_over (civilFromRd (rataDie 2024 1 8 - 5))
        (civilFromRd (rataDie 2024 1 8)) = true ∧
    has_date_rolled_over (civilFromRd (rataDie 2024 1 7 - 6))
        (civilFromRd (rataDie 2024 1 7)) = false := by decide

/-- C4 (amended): for every current instant `now` (each day of
2020-01-01..2021-12-31, as a day number — a window containing both a
53-week ISO year and a 52-week one), `has_date_rolled_over` on
`now − 6 days` returns true iff `now` is not a Sunday, and on `now − 5 days`
returns false iff `now` is a Saturday or a Sunday; so the claimed pair of
outcomes occurs exactly when `now` falls on a Saturday. -/
theorem rollover_concrete_case_amended (rd : Nat)
    (h1 : rataDie 2020 1 1 ≤ rd) (h2 : rd ≤ rataDie 2021 12 31) :
    (has_date_rolled_over (civilFromRd (rd - 6)) (civilFromRd rd) = true ↔
      (civilFromRd rd).weekday ≠ 7) ∧
    (has_date_rolled_over (civilFromRd (rd - 5)) (civilFromRd rd) = false ↔
      ((civilFromRd rd).weekday = 6 ∨ (civilFromRd rd).weekday = 7)) := by
  rw [rataDie_2020_val] at h1
  rw [rataDie_2021_val] at h2
  have hc := checkRolloverInterval_spec 13 737425 738156
    rollover_range_checked rd h1 (by omega)
  rw [rolloverSixFive, Bool.and_eq_true, beq_iff_eq, beq_iff_eq] at hc
  obtain ⟨e6, e5⟩ := hc
  constructor
  · rw [e6]
    simp only [decide_eq_true_eq]
  · rw [e5]
    simp only [decide_eq_false_iff_not, not_not]

/-- C4 witness: on the Saturday 2021-06-05 both claimed outcomes hold. -/
theorem rollover_concrete_case_amended_witness :
    has_date_rolled_over (civilFromRd (rataDie 2021 6 5 - 6))
        (civilFromRd (rataDie 2021 6 5)) = true ∧
    has_date_rolled_over (civilFromRd (rataDie 2021 6 5 - 5))
        (civilFromRd (rataDie 2021 6 5)) = false := by
  have h := rollover_concrete_case_amended (rataDie 2021 6 5) (by decide)
    (by decide)
  exact ⟨h.1.mpr (by decide), h.2.mpr (Or.inl (by decide))⟩

/-! ### C1: the mark-award rule -/

/-- C1 counterexample: the claim says `try_award_mark` is idempotent-false
immediately after firing, but on a profile whose weekly counter sits at the
threshold the call leaves that counter unchanged, so an immediate second
call (without another increment) fires again, returning true and mutating
the profile a second time. -/
theorem try_award_mark_counterexample :
    ((awardSampleProfile.try_award_mark 4).snd.try_award_mark 4).fst =
      true ∧
    ((awardSampleProfile.try_award_mark 4).snd.try_award_mark 4).snd ≠
      (awardSampleProfile.try_award_mark 4).snd := by decide

/-- C1 (amended): `try_award_mark` returns true and increments both
`total_marks` and `marks_at_current_rank` by exactly 1 (the `+= 1` of `i32`
arithmetic, rendered with its wrap) precisely when
`events_attended_this_week` equals the threshold, and otherwise returns
false leaving the profile unchanged; but it is NOT idempotent-false after
firing: it leaves the weekly counter unchanged, so an immediate second call
without another increment fires again (non-refiring within a week relies on
the caller invoking the rule exactly once per counter increment). -/
theorem try_award_mark_spec (eventPerWeekForMark : Int) (p : Profile) :
    ((p.try_award_mark eventPerWeekForMark).fst = true ↔
      p.events_attended_this_week = eventPerWeekForMark) ∧
    (p.events_attended_this_week = eventPerWeekForMark →
      (p.try_award_mark eventPerWeekForMark).snd =
        { p with
            total_marks := i32wrap (p.total_marks + 1),
            marks_at_current_rank := i32wrap (p.marks_at_current_rank + 1) }) ∧
    (p.events_attended_this_week ≠ eventPerWeekForMark →
      (p.try_award_mark eventPerWeekForMark).snd = p) ∧
    (p.events_attended_this_week = eventPerWeekForMark →
      ((p.try_award_mark eventPerWeekForMark).snd.try_award_mark
          eventPerWeekForMark).fst = true) := by
  unfold Profile.try_award_mark
  by_cases h : p.events_attended_this_week = eventPerWeekForMark
  · simp [h]
  · simp [h]

/-- C1 witness: firing at the threshold on a concrete profile. -/
theorem try_award_mark_spec_witness :
    (awardSampleProfile.try_award_mark 4).snd =
      { awardSampleProfile with
          total_marks := 1, marks_at_current_rank := 1 } := by
  have h := (try_award_mark_spec 4 awardSampleProfile).2.1 (by decide)
  rw [h]
  decide

/-! ### C6: the weekly reset rule -/

/-- C6: `try_reset_events` zeroes the weekly counter and returns false when
no attendance date is stored; zeroes it and returns true when the stored
date has rolled over; and leaves the profile entirely untouched, returning
false, when it has not. -/
theorem try_reset_events_spec (now : DateTime) (p : Profile) :
    (p.last_event_attended_date = none →
      p.try_reset_events now =
        (false, { p with events_attended_this_week := 0 })) ∧
    (∀ d, p.last_event_attended_date = some d →
      (has_date_rolled_over d now = true →
        p.try_reset_events now =
          (true, { p with events_attended_this_week := 0 })) ∧
      (has_date_rolled_over d now = false →
        p.try_reset_events now = (false, p))) := by
  unfold Profile.try_reset_events
  constructor
  · intro h
    rw [h]
  · intro d hd
    rw [hd]
    constructor
    · intro hroll
      simp [hroll]
    · intro hroll
      simp [hroll]

/-- C6 witness: the no-history case on a concrete profile. -/
theorem try_reset_events_spec_witness :
    awardSampleProfile.try_reset_events ⟨2024, 1, 8, 0, 0, 0, 0⟩ =
      (false, { awardSampleProfile with events_attended_this_week := 0 }) :=
  (try_reset_events_spec ⟨2024, 1, 8, 0, 0, 0, 0⟩ awardSampleProfile).1 rfl

/-! ### C7: the rank-update rule -/

/-- C7: `try_update_rank x` is a no-op returning false when `x` equals the
stored `rank_id`, and otherwise stores `x`, zeroes `marks_at_current_rank`
and returns true. -/
theorem try_update_rank_spec (p : Profile) (x : Nat) :
    (x = p.rank_id → p.try_update_rank x = (false, p)) ∧
    (x ≠ p.rank_id →
      p.try_update_rank x =
        (true, { p with rank_id := x, marks_at_current_rank := 0 })) := by
  unfold Profile.try_update_rank
  constructor
  · intro h
    simp [h]
  · intro h
    simp [Ne.symm h]

/-- C7 witness: a genuine rank change on a concrete profile. -/
theorem try_update_rank_spec_witness :
    awardSampleProfile.try_update_rank 5 =
      (true, { awardSampleProfile with
                 rank_id := 5, marks_at_current_rank := 0 }) :=
  (try_update_rank_spec awardSampleProfile 5).2 (by decide)

/-! ### C8: total_marks is monotone only below the i32 maximum -/

/-- C8 counterexample: at the storable, decodable state
`total_marks = 2^31 - 1` a firing award wraps `total_marks` to `-2^31`, so
that single operation decreases it — the unrestricted monotonicity claim
fails.  (A debug build would panic at this point instead of wrapping.) -/
theorem total_marks_monotone_counterexample :
    (applyProfileOps [ProfileOp.award 4] overflowProfile).total_marks =
      -(2 ^ 31) ∧
    ¬ overflowProfile.total_marks ≤
        (applyProfileOps [ProfileOp.award 4] overflowProfile).total_marks := by
  decide

/-- A single operation changes `total_marks` by 0 or +1, provided the
current value is a valid `i32` strictly below the maximum (so that the
award's `+= 1` cannot wrap). -/
theorem applyProfileOp_total_marks_le (op : ProfileOp) (p : Profile)
    (hlo : -(2 ^ 31) ≤ p.total_marks) (hhi : p.total_marks < 2 ^ 31 - 1) :
    p.total_marks ≤ (applyProfileOp op p).total_marks ∧
    (applyProfileOp op p).total_marks ≤ p.total_marks + 1 := by
  cases op with
  | award t =>
    unfold applyProfileOp Profile.try_award_mark
    by_cases h : p.events_attended_this_week = t
    · simp [h, i32wrap]
      omega
    · simp [h]
  | updateRank x =>
    unfold applyProfileOp Profile.try_update_rank
    by_cases h : p.rank_id ≠ x
    · simp [h]
    · simp [h]
  | resetEvents n =>
    unfold applyProfileOp Profile.try_reset_events
    cases hd : p.last_event_attended_date with
    | none => simp [hd]
    | some d =>
      by_cases h : has_date_rolled_over d n
      · simp [hd, h]
      · simp [hd, h]

/-- C8 (amended): `total_marks` never decreases in the absence of `i32`
overflow: for every finite sequence of the three Profile operations whose
initial `total_marks` is a valid `i32` and which is short enough that the
counter cannot be driven past the `i32` maximum (each operation adds at
most 1), the final `total_marks` is at least the initial one. -/
theorem total_marks_monotone (ops : List ProfileOp) (p : Profile)
    (hlo : -(2 ^ 31) ≤ p.total_marks)
    (hhi : p.total_marks + (ops.length : Int) ≤ 2 ^ 31 - 1) :
    p.total_marks ≤ (applyProfileOps ops p).total_marks := by
  induction ops generalizing p with
  | nil => simp [applyProfileOps]
  | cons op rest ih =>
    have hlen : ((op :: rest).length : Int) = (rest.length : Int) + 1 := by
      simp
    rw [hlen] at hhi
    have hll : (0 : Int) ≤ (rest.length : Int) := Int.natCast_nonneg _
    obtain ⟨h1, h2⟩ := applyProfileOp_total_marks_le op p hlo (by omega)
    have step : applyProfileOps (op :: rest) p =
        applyProfileOps rest (applyProfileOp op p) := rfl
    rw [step]
    have ih2 := ih (applyProfileOp op p) (by omega) (by omega)
    exact le_trans h1 ih2

/-- C8 witness: a short concrete sequence (one firing award, one rank
change) on a freshly created profile, far from the i32 bound. -/
theorem total_marks_monotone_witness :
    awardSampleProfile.total_marks ≤
      (applyProfileOps [ProfileOp.award 4, ProfileOp.updateRank 2]
          awardSampleProfile).total_marks :=
  total_marks_monotone [ProfileOp.award 4, ProfileOp.updateRank 2]
    awardSampleProfile (by decide) (by decide)

/-! ### C9: should_promote is partial in the rank table -/

/-- C9: `should_promote` unwraps the rank-table lookup, so it panics
(modelled `none`) exactly when `rank_id` has no entry; on a known rank it
returns normally: true iff `marks_at_current_rank` equals the rank's
required-marks threshold, and false for a rank with no threshold. -/
theorem should_promote_spec (from_rank_id : Nat → Option Rank)
    (p : Profile) :
    (from_rank_id p.rank_id = none →
      p.should_promote from_rank_id = none) ∧
    (∀ r, from_rank_id p.rank_id = some r →
      (r.required_marks = none →
        p.should_promote from_rank_id = some false) ∧
      (∀ m, r.required_marks = some m →
        p.should_promote from_rank_id =
          some (decide (p.marks_at_current_rank = m)))) := by
  unfold Profile.should_promote
  constructor
  · intro h
    rw [h]
  · intro r hr
    rw [hr]
    constructor
    · intro hm
      simp [hm]
    · intro m hm
      simp [hm]

/-- C9 witness: an unknown rank id makes the call panic (`none`). -/
theorem should_promote_spec_witness :
    Profile.should_promote (fun _ => none) awardSampleProfile = none :=
  (should_promote_spec (fun _ => none) awardSampleProfile).1 rfl

/-! ### C2: row-format round trip -/

/-- C2 (code bug): the `INSERT` of `put_event` never writes the metadata
column, so encoding an event that carries metadata and decoding the stored
row with `Event::from_row` yields the event with `metadata = None` — every
field except the metadata mapping survives the round trip, contradicting
the required exact inverse. -/
theorem put_event_drops_metadata :
    Event.from_row (put_event_row 1 eventSample) =
      some { eventSample with metadata := none } ∧
    eventSample.metadata ≠ none := by decide

/-- Supporting check: with no metadata present the event row round-trips
exactly. -/
theorem event_row_roundtrip_no_metadata :
    Event.from_row (put_event_row 7 eventSampleNoMeta) =
      some eventSampleNoMeta := by decide

/-- Supporting check: the profile row round-trips exactly in the `"null"`
sentinel case for `last_event_attended_date`. -/
theorem profile_row_roundtrip_no_date :
    Profile.from_row (profile_row profileSampleNoDate) =
      some profileSampleNoDate := by decide

/-- Supporting check: the profile row round-trips exactly with a stored
attendance date and an absent username. -/
theorem profile_row_roundtrip_with_date :
    Profile.from_row (profile_row profileSampleWithDate) =
      some profileSampleWithDate := by decide

/-! ### C3: decode failures versus NotFound -/

/-- C3 counterexample: a stored row whose attendance column is corrupt JSON
makes `get_event_info_by_info` answer exactly the same absent result as a
nonexistent event id — the decode failure is not distinguishable from
NotFound. -/
theorem get_event_decode_failure_counterexample :
    get_event_info_by_info corruptEventStore 1 = none ∧
    corruptEventStore 1 ≠ none ∧
    get_event_info_by_info corruptEventStore 2 = none ∧
    corruptEventStore 2 = none := by decide

/-- C3 (amended): an undecodable stored row aborts only the single read —
the modelled `database::get_event` reports an `EncodingFailure` error for
that id, distinct from the `ok none` of a missing id — but the handler
`get_event_info_by_info` collapses the error with `.unwrap_or(None)`, so
the caller receives the same absent result as NotFound and cannot
distinguish the two. -/
theorem get_event_decode_failure_amended (store : Nat → Option Row)
    (event_id : Nat) (row : Row) (hrow : store event_id = some row)
    (hbad : Event.from_row row = none) :
    database_get_event store event_id = Except.error () ∧
    get_event_info_by_info store event_id = none ∧
    ∀ j, store j = none →
      database_get_event store j = Except.ok none ∧
      get_event_info_by_info store j = none := by
  refine ⟨?_, ?_, ?_⟩
  · unfold database_get_event
    rw [hrow]
    simp [hbad]
  · unfold get_event_info_by_info database_get_event
    rw [hrow]
    simp [hbad]
  · intro j hj
    constructor
    · unfold database_get_event
      rw [hj]
    · unfold get_event_info_by_info database_get_event
      rw [hj]

/-- C3 witness: the amended statement on the concrete corrupt store. -/
theorem get_event_decode_failure_amended_witness :
    database_get_event corruptEventStore 1 = Except.error () ∧
    get_event_info_by_info corruptEventStore 1 = none ∧
    get_event_info_by_info corruptEventStore 2 = none := by
  have h := get_event_decode_failure_amended corruptEventStore 1
    corruptAttendanceRow (by decide) (by decide)
  exact ⟨h.1, h.2.1, (h.2.2 2 (by decide)).2⟩

end SolMainframe
